import Mathlib

/-!
Verification development for the sfc TX path
(drivers/net/ethernet/sfc/tx.c): descriptor placement, backpressure,
TSO fallback, XDP batch transmission and traffic-class setup.

Machine integers of the C source (`unsigned int` counters) are modelled
as `Nat` with explicit wraparound subtraction `u32sub` where the source
subtracts unsigned counters.  External helpers that live in other files
of the driver (tx_common.c, nic.h, efx.h, net_driver.h) are modelled
from the specification and carry a doc comment saying so.
-/

namespace SfcTx

/-- Modulus of a 32-bit unsigned int. -/
def U32 : Nat := 4294967296

/-- Wraparound subtraction of two `unsigned int` values, as the C
expression `a - b` computes it on 32-bit unsigned operands. -/
def u32sub (a b : Nat) : Nat := (a + U32 - b) % U32

/-- PIO threshold: `EFX_PIOBUF_SIZE_DEF = ALIGN(256, L1_CACHE_BYTES)`
(tx.c line 29); with 64-byte cache lines this is 256. -/
def efx_piobuf_size : Nat := 256

/-- Modelled from the spec: `EFX_TX_CB_SIZE`, the fixed small-packet
threshold tied to the staging (copy-buffer) slot size, defined in
net_driver.h which is not part of the sources under study.  The
concrete value is irrelevant to the claims, which refer to it by name. -/
def EFX_TX_CB_SIZE : Nat := 126

/-- Modelled from the spec: `EFX_MAX_TX_TC`, the maximum number of
traffic classes (efx.h, not part of the sources under study). -/
def EFX_MAX_TX_TC : Nat := 2

/-- Discriminated buffer kind of a TX descriptor slot, per the data
model: the flag combinations the source writes
(`EFX_TX_BUF_SKB`, `.. | EFX_TX_BUF_OPTION`,
`EFX_TX_BUF_XDP | EFX_TX_BUF_MAP_SINGLE`, DMA-mapped) become variants. -/
inductive BufKind where
  | empty
  | deviceMapped
  | inlineCopy
  | pioOption
  | rawFrame
deriving DecidableEq, Repr

/-- One descriptor slot of the ring (`struct efx_tx_buffer`):
kind, length, unmap obligation, and the owned packet reference
(an skb id or an XDP frame id) released at completion time. -/
structure TxBuffer where
  kind : BufKind := .empty
  len : Nat := 0
  unmap_len : Nat := 0
  skb : Option Nat := none
  xdpf : Option Nat := none
deriving DecidableEq, Repr

/-- A cleared descriptor slot: no mapping obligation, kind cleared. -/
def TxBuffer.cleared : TxBuffer := {}

/-- State of one TX queue (`struct efx_tx_queue`).  `buffers` maps the
raw insert index to the slot written there (ring masking is a bijection
on any in-flight window, so raw counts index slots faithfully).
`stopped` is the state of the associated core netdev queue
(`netif_tx_stop_queue` / `netif_tx_start_queue`), tracked on the
submitting queue of each pair. -/
structure TxQueue where
  insert_count : Nat := 0
  read_count : Nat := 0
  old_read_count : Nat := 0
  buffers : Nat → TxBuffer := fun _ => {}
  stopped : Bool := false
  xmit_more_available : Bool := false
  tx_packets : Nat := 0
  tso_bursts : Nat := 0
  tso_packets : Nat := 0
  tso_fallbacks : Nat := 0
  pio_packets : Nat := 0
  cb_packets : Nat := 0

/-- The NIC-level fields of `struct efx_nic` that the TX path reads. -/
structure EfxNic where
  txq_entries : Nat := 0
  txq_stop_thresh : Nat := 0
  loopback_selftest : Bool := false
  xdp_tx_queue_count : Nat := 0
  n_tx_channels : Nat := 1

/-- Pessimistic fill level from the stale `old_read_count` snapshots of
a queue pair, as computed at tx.c lines 67-68. -/
def staleFill (q1 q2 : TxQueue) : Nat :=
  max (u32sub q1.insert_count q1.old_read_count)
      (u32sub q2.insert_count q2.old_read_count)

/-- Fill level from the true `read_count` values of a queue pair, what
the barrier-ordered re-read at tx.c lines 88-92 observes. -/
def freshFill (q1 q2 : TxQueue) : Nat :=
  max (u32sub q1.insert_count q1.read_count)
      (u32sub q2.insert_count q2.read_count)

/-- The backpressure check `efx_tx_maybe_stop_queue` (tx.c lines
60-99).  The cheap check uses the stale snapshots; if it fires, the
queue is stopped first, then (after `smp_mb`) both queues' true
`read_count` values are re-read into `old_read_count` and the fill is
recomputed; if the refreshed fill is below the threshold the queue is
restarted unless loopback self-test mode is active. -/
def efx_tx_maybe_stop_queue (efx : EfxNic) (txq1 txq2 : TxQueue) :
    TxQueue × TxQueue :=
  if staleFill txq1 txq2 < efx.txq_stop_thresh then
    (txq1, txq2)
  else
    let txq1a := { txq1 with stopped := true,
                             old_read_count := txq1.read_count }
    let txq2a := { txq2 with old_read_count := txq2.read_count }
    if staleFill txq1a txq2a < efx.txq_stop_thresh then
      if efx.loopback_selftest then (txq1a, txq2a)
      else ({ txq1a with stopped := false }, txq2a)
    else (txq1a, txq2a)

/-- A packet fragment as the DMA mapping walk sees it: its length and
whether obtaining a device-visible address for it will succeed. -/
structure Frag where
  len : Nat := 0
  mappable : Bool := true
deriving DecidableEq, Repr

/-- The socket-buffer fields the TX path reads: total length, bytes
held in page fragments (`data_len`, nonzero means fragmented), GSO
marking, and the fragment list the mapping walk traverses. -/
structure Skb where
  id : Nat := 0
  len : Nat := 0
  data_len : Nat := 0
  is_gso : Bool := false
  gso_segs : Nat := 0
  frags : List Frag := []
deriving DecidableEq, Repr

/-- Segment count as `efx_enqueue_skb` computes it (tx.c lines
326-328): `gso_segs` when the packet is GSO, with a single segment
treated as non-TSO. -/
def segCount (skb : Skb) : Nat :=
  let s := if skb.is_gso then skb.gso_segs else 0
  if s = 1 then 0 else s

/-- Claim the next insert slot (`efx_tx_queue_get_insert_buffer`),
write fields into it with `f`, and advance `insert_count`. -/
def appendBufWith (q : TxQueue) (f : TxBuffer → TxBuffer) : TxQueue :=
  { q with
    buffers := fun i =>
      if i = q.insert_count then f (q.buffers q.insert_count)
      else q.buffers i,
    insert_count := q.insert_count + 1 }

/-- Modelled from the spec (§4.2): `efx_nic_may_tx_pio` (nic.h, not
part of the sources under study): true when direct-write (PIO)
hardware resources are available and the queue is empty. -/
def efx_nic_may_tx_pio (has_piobuf : Bool) (q : TxQueue) : Bool :=
  has_piobuf && q.insert_count == q.read_count

/-- Modelled from the spec (§6): `efx_nic_push_buffers` (nic.h, not
part of the sources under study): the doorbell push makes every
descriptor inserted since the last push visible to the device and
clears the queue's deferred-push flag. -/
def efx_nic_push_buffers (q : TxQueue) : TxQueue :=
  { q with xmit_more_available := false }

/-- Modelled from the spec (§4.1): `efx_enqueue_unwind` (tx_common.c,
not part of the sources under study).  Every descriptor appended since
`old_insert` is unmapped if it owns a mapping, its kind cleared, and
`insert_count` is reset to the pre-submission value. -/
def efx_enqueue_unwind (q : TxQueue) (old_insert : Nat) : TxQueue :=
  { q with
    insert_count := old_insert,
    buffers := fun i =>
      if old_insert ≤ i ∧ i < q.insert_count then TxBuffer.cleared
      else q.buffers i }

/-- The copy-coalesce placement `efx_enqueue_skb_copy` (tx.c lines
101-126): obtain a staging-page region (fails with -ENOMEM when the
lazy page allocation fails, leaving the queue untouched), copy the
packet bytes, record zero unmap length, tag the slot InlineCopy with
the owned packet, and advance the insert count. -/
def efx_enqueue_skb_copy (cb_alloc_ok : Bool) (q : TxQueue) (skb : Skb) :
    Int × TxQueue :=
  if cb_alloc_ok = false then (-12, q)
  else
    (0, appendBufWith q fun b =>
      { b with kind := .inlineCopy, len := skb.len, unmap_len := 0,
               skb := some skb.id })

/-- The programmed-write placement `efx_enqueue_skb_pio` (tx.c lines
222-268): copy the packet bytes to the PIO region, append exactly one
self-contained option descriptor owning the packet, and return 0
(this placement cannot fail). -/
def efx_enqueue_skb_pio (q : TxQueue) (skb : Skb) : Int × TxQueue :=
  (0, appendBufWith q fun b =>
    { b with kind := .pioOption, skb := some skb.id })

/-- Modelled from the spec (§4.1): `efx_tx_map_data` (tx_common.c, not
part of the sources under study).  Walks the fragment list; each
mappable fragment appends a DeviceMapped descriptor carrying its
length and unmap obligation, the last one owning the packet reference
for completion-time release; the walk stops with an error at the first
fragment that fails to map, leaving the caller to unwind. -/
def mapFrags (sid : Nat) : TxQueue → List Frag → Int × TxQueue
  | q, [] => (0, q)
  | q, f :: rest =>
    if f.mappable then
      mapFrags sid
        (appendBufWith q fun b =>
          { b with kind := .deviceMapped, len := f.len,
                   unmap_len := f.len,
                   skb := if rest.isEmpty then some sid else b.skb })
        rest
    else (-12, q)

/-- Modelled from the spec (§4.1): entry point of the DMA mapping
manager, `efx_tx_map_data(tx_queue, skb, segments)`. -/
def efx_tx_map_data (q : TxQueue) (skb : Skb) : Int × TxQueue :=
  mapFrags skb.id q skb.frags

/-- Which placement strategy a submission went through; records the
branch taken at tx.c lines 334-364. -/
inductive TxPath where
  | tsoPath
  | pioPath
  | copyPath
  | dmaPath
deriving DecidableEq, Repr

/-- Observable outcome of one `efx_enqueue_skb` call: final state of
the queue and its partner, the return value, the ids of packets
released (freed or consumed), the number of doorbell pushes issued,
the placement branch taken, and whether the error exit was taken. -/
structure EnqueueResult where
  q : TxQueue
  partner : TxQueue
  ret : Int
  freed : List Nat := []
  pushes : Nat := 0
  path : Option TxPath := none
  failed : Bool := false

/-- Values one submission call reads from outside the queue pair:
`netdev_xmit_more()`, PIO resource availability, the lazy staging-page
allocation outcome, and the push decision of `__netdev_tx_sent_queue`. -/
structure PlaceEnv where
  xmit_more : Bool := false
  has_piobuf : Bool := false
  cb_alloc_ok : Bool := true
  sent_queue_push : Bool := true
deriving DecidableEq, Repr

/-- Behaviour of the hardware TSO handler `tx_queue->handle_tso` (a
NIC-specific function outside tx.c, modelled as environment data): its
return code, the descriptors it appended before returning, whether it
set `*data_mapped`, and the outcome of `skb_gso_segment` for the
software fallback — `segs = some l` gives the resulting segments, each
with the environment of its own resubmission call, `segs = none` means
segmentation failed with error `seg_err`. -/
structure TsoEnv where
  rc : Int := 0
  descs : List TxBuffer := []
  data_mapped : Bool := true
  segs : Option (List (Skb × PlaceEnv)) := none
  seg_err : Int := -12

/-- Append a list of ready-built descriptors at the insert position. -/
def appendDescs (q : TxQueue) (bs : List TxBuffer) : TxQueue :=
  bs.foldl (fun acc b => appendBufWith acc fun _ => b) q

/-- Apply the TSO handler: append the descriptors it builds and report
its return code. -/
def applyHandleTso (t : TsoEnv) (q : TxQueue) : Int × TxQueue :=
  (t.rc, appendDescs q t.descs)

/-- Success tail of `efx_enqueue_skb` (tx.c lines 366-392):
backpressure check, hand off to hardware — pushing the partner queue
first if it has deferred work, or deferring this queue's push when
more submissions are pending — and the per-path counter updates. -/
def enqueueTail (env : PlaceEnv) (efx : EfxNic) (q partner : TxQueue)
    (segments : Nat) (path : TxPath) : EnqueueResult :=
  let sp := efx_tx_maybe_stop_queue efx q partner
  let q := sp.1
  let partner := sp.2
  let step :
      TxQueue × TxQueue × Nat :=
    if env.sent_queue_push then
      if partner.xmit_more_available then
        (efx_nic_push_buffers q, efx_nic_push_buffers partner, 2)
      else
        (efx_nic_push_buffers q, partner, 1)
    else
      ({ q with xmit_more_available := env.xmit_more }, partner, 0)
  let q := step.1
  let partner := step.2.1
  let q :=
    if segments ≠ 0 then
      { q with tso_bursts := q.tso_bursts + 1,
               tso_packets := q.tso_packets + segments,
               tx_packets := q.tx_packets + segments }
    else { q with tx_packets := q.tx_packets + 1 }
  { q := q, partner := partner, ret := 0, freed := [],
    pushes := step.2.2, path := some path }

/-- Error exit of `efx_enqueue_skb` (tx.c lines 395-412): unwind to
the recorded insert count, release the packet, and — when no further
submission is pending — push any deferred work on the partner queue
and this queue. -/
def enqueueErr (env : PlaceEnv) (q partner : TxQueue) (skb : Skb)
    (old_insert : Nat) (path : TxPath) : EnqueueResult :=
  let q := efx_enqueue_unwind q old_insert
  let step :
      TxQueue × TxQueue × Nat :=
    if env.xmit_more then (q, partner, 0)
    else if partner.xmit_more_available then
      (efx_nic_push_buffers q, efx_nic_push_buffers partner, 2)
    else
      (efx_nic_push_buffers q, partner, 1)
  { q := step.1, partner := step.2.1, ret := 0, freed := [skb.id],
    pushes := step.2.2, path := some path, failed := true }

/-- The non-TSO body of `efx_enqueue_skb` (tx.c lines 345-412 with
`segments = 0`): select the PIO, copy-coalesce, or generic DMA
placement, then run the common tail, taking the error exit on any
placement failure. -/
def enqueuePlace (env : PlaceEnv) (efx : EfxNic) (q partner : TxQueue)
    (skb : Skb) : EnqueueResult :=
  let old_insert := q.insert_count
  if skb.len ≤ efx_piobuf_size ∧ env.xmit_more = false ∧
      efx_nic_may_tx_pio env.has_piobuf q = true then
    let r := efx_enqueue_skb_pio q skb
    if r.1 ≠ 0 then enqueueErr env r.2 partner skb old_insert .pioPath
    else
      enqueueTail env efx
        { r.2 with pio_packets := r.2.pio_packets + 1 } partner 0 .pioPath
  else if skb.data_len ≠ 0 ∧ skb.len ≤ EFX_TX_CB_SIZE then
    let r := efx_enqueue_skb_copy env.cb_alloc_ok q skb
    if r.1 ≠ 0 then enqueueErr env r.2 partner skb old_insert .copyPath
    else
      enqueueTail env efx
        { r.2 with cb_packets := r.2.cb_packets + 1 } partner 0 .copyPath
  else
    let r := efx_tx_map_data q skb
    if r.1 ≠ 0 then enqueueErr env r.2 partner skb old_insert .dmaPath
    else enqueueTail env efx r.2 partner 0 .dmaPath

/-- Resubmission walk of the software TSO fallback (tx.c lines
292-295): each segment produced by `skb_gso_segment` is fed back
through `efx_enqueue_skb`; since software segmentation yields non-GSO
segments, each resubmission takes the non-TSO placement path (lemma
`enqueue_skb_nongso`), so the walk folds that path.  Freed packets and
doorbell pushes accumulate. -/
def resubmitSegs (efx : EfxNic) :
    List (Skb × PlaceEnv) → TxQueue → TxQueue → List Nat → Nat →
    TxQueue × TxQueue × List Nat × Nat
  | [], q, partner, freed, pushes => (q, partner, freed, pushes)
  | (s, e) :: rest, q, partner, freed, pushes =>
    let r := enqueuePlace e efx q partner s
    resubmitSegs efx rest r.q r.partner (freed ++ r.freed)
      (pushes + r.pushes)

/-- The software TSO fallback `efx_tx_tso_fallback` (tx.c lines
280-298): segment the packet in software; on segmentation failure
return its error with nothing released; otherwise release the original
packet and resubmit every resulting segment. -/
def efx_tx_tso_fallback (t : TsoEnv) (efx : EfxNic) (q partner : TxQueue)
    (skb : Skb) : Int × TxQueue × TxQueue × List Nat × Nat :=
  match t.segs with
  | none => (t.seg_err, q, partner, [], 0)
  | some segs =>
    let w := resubmitSegs efx segs q partner [] 0
    (0, w.1, w.2.1, skb.id :: w.2.2.1, w.2.2.2)

/-- The submission entry point `efx_enqueue_skb` (tx.c lines 316-413):
record the entry insert count, try hardware TSO for multi-segment GSO
packets — falling back to software segmentation on -EINVAL (bumping
`tso_fallbacks`), aborting through the error exit on any other
failure — and otherwise run the non-TSO placement body. -/
def efx_enqueue_skb (env : PlaceEnv) (t : TsoEnv) (efx : EfxNic)
    (q partner : TxQueue) (skb : Skb) : EnqueueResult :=
  let old_insert := q.insert_count
  let segments := segCount skb
  if segments ≠ 0 then
    let h := applyHandleTso t q
    if h.1 = -22 then
      let fb := efx_tx_tso_fallback t efx h.2 partner skb
      let q2 := { fb.2.1 with tso_fallbacks := fb.2.1.tso_fallbacks + 1 }
      if fb.1 = 0 then
        { q := q2, partner := fb.2.2.1, ret := 0, freed := fb.2.2.2.1,
          pushes := fb.2.2.2.2, path := some .tsoPath }
      else
        let r := enqueueErr env q2 fb.2.2.1 skb old_insert .tsoPath
        { r with freed := fb.2.2.2.1 ++ r.freed,
                 pushes := fb.2.2.2.2 + r.pushes }
    else if h.1 ≠ 0 then
      enqueueErr env h.2 partner skb old_insert .tsoPath
    else if t.data_mapped = false then
      let m := efx_tx_map_data h.2 skb
      if m.1 ≠ 0 then enqueueErr env m.2 partner skb old_insert .tsoPath
      else enqueueTail env efx m.2 partner segments .tsoPath
    else enqueueTail env efx h.2 partner segments .tsoPath
  else enqueuePlace env efx q partner skb

/-- Resubmission walk expressed literally through `efx_enqueue_skb`,
used to state the fallback claim: each segment goes through the full
submission entry point with a fresh (default) TSO environment. -/
def resubmitSegsFull (efx : EfxNic) :
    List (Skb × PlaceEnv) → TxQueue → TxQueue → List Nat → Nat →
    TxQueue × TxQueue × List Nat × Nat
  | [], q, partner, freed, pushes => (q, partner, freed, pushes)
  | (s, e) :: rest, q, partner, freed, pushes =>
    let r := efx_enqueue_skb e {} efx q partner s
    resubmitSegsFull efx rest r.q r.partner (freed ++ r.freed)
      (pushes + r.pushes)

/-- An XDP frame as the batch transmitter sees it: identity, length,
and whether DMA mapping will succeed for it. -/
structure XdpFrame where
  id : Nat := 0
  len : Nat := 0
  mappable : Bool := true
deriving DecidableEq, Repr

/-- Observable outcome of one `efx_xdp_tx_buffers` call: the return
value, the state of the bound queue after the call (`none` when the
call failed before a queue was bound), the frames handed back to their
origin, and whether a doorbell push was issued. -/
structure XdpResult where
  ret : Int
  queue : Option TxQueue := none
  returned : List XdpFrame := []
  pushed : Bool := false

/-- The frame release helper `efx_xdp_return_frames` (tx.c lines
415-421): hands each listed frame back to its origin
(`xdp_return_frame_rx_napi`); the model records the handed-back list. -/
def efx_xdp_return_frames (fs : List XdpFrame) : List XdpFrame := fs

/-- The per-frame loop of `efx_xdp_tx_buffers` (tx.c lines 463-489):
stops when the batch is exhausted, when the computed space is reached,
or at the first frame whose DMA mapping fails; each queued frame gets
one RawFrame descriptor with a single-mapping unmap obligation
(`efx_tx_map_chunk` from tx_common.c, modelled from the spec as
appending exactly one descriptor) and bumps `tx_packets`;
`xdpAppend` is that per-frame body (tx.c lines 470-488). -/
def xdpAppend (q : TxQueue) (f : XdpFrame) : TxQueue :=
  let q1 := appendBufWith q fun b =>
    { b with kind := .rawFrame, len := f.len, unmap_len := f.len,
             skb := none, xdpf := some f.id }
  { q1 with tx_packets := q1.tx_packets + 1 }

def xdpTxLoop (space : Int) : TxQueue → List XdpFrame → Nat →
    TxQueue × Nat
  | q, [], i => (q, i)
  | q, f :: rest, i =>
    if space ≤ (i : Int) then (q, i)
    else if f.mappable then
      xdpTxLoop space (xdpAppend q f) rest (i + 1)
    else (q, i)

/-- The XDP batch transmitter `efx_xdp_tx_buffers` (tx.c lines
429-501).  The calling context's CPU and the per-CPU bound-queue table
are explicit arguments; the frame array is a list whose first `n`
entries the call indexes, as the C code reads `xdpfs[0..n-1]`. -/
def efx_xdp_tx_buffers (efx : EfxNic) (tx_queues : Nat → Option TxQueue)
    (cpu : Nat) (n : Nat) (xdpfs : Option (List XdpFrame))
    (flush : Bool) : XdpResult :=
  if efx.xdp_tx_queue_count = 0 ∨ efx.xdp_tx_queue_count ≤ cpu then
    { ret := -22 }
  else
    match tx_queues cpu with
    | none => { ret := -22 }
    | some tx_queue =>
      if n ≠ 0 ∧ xdpfs = none then { ret := -22, queue := some tx_queue }
      else if n = 0 then { ret := 0, queue := some tx_queue }
      else
        let frames := (xdpfs.getD []).take n
        let space : Int := (efx.txq_entries : Int) +
          (tx_queue.read_count : Int) - (tx_queue.insert_count : Int)
        let w := xdpTxLoop space tx_queue frames 0
        let pushed := flush ∧ 0 < w.2
        let q := if flush ∧ 0 < w.2 then efx_nic_push_buffers w.1 else w.1
        if w.2 = 0 then
          { ret := -5, queue := some q, pushed := pushed }
        else
          { ret := (w.2 : Int), queue := some q,
            returned := efx_xdp_return_frames (frames.drop w.2),
            pushed := pushed }

/-- Allocation and initialisation state of one TX queue as
`efx_setup_tc` sees it (tx.c lines 578-594): whether it is the
high-priority queue of its channel, whether its ring buffer has been
allocated (probed), whether it is initialised, and whether its core
netdev queue association is set. -/
structure AdminQueue where
  highpri : Bool := false
  allocated : Bool := false
  initialised : Bool := false
  core_bound : Bool := false
deriving DecidableEq, Repr

/-- The net-device fields `efx_setup_tc` touches: advertised class
count, per-class queue mapping (offset and count), and the advertised
real TX queue count. -/
structure NetDev where
  num_tc : Nat := 0
  tc_to_txq : Nat → Nat × Nat := fun _ => (0, 0)
  real_num_tx_queues : Nat := 0

/-- Environment of one `efx_setup_tc` call: whether queue probing
(`efx_probe_tx_queue`) and `netif_set_real_num_tx_queues` succeed. -/
structure SetupTcEnv where
  probe_ok : Bool := true
  set_real_ok : Bool := true
deriving DecidableEq, Repr

/-- The `type` discriminator of `efx_setup_tc`. -/
inductive TcSetupType where
  | mqprio
  | other
deriving DecidableEq, Repr

/-- Observable outcome of one `efx_setup_tc` call. -/
structure SetupTcResult where
  rc : Int
  nd : NetDev
  queues : List AdminQueue

/-- Modelled from the spec (§4.6): the lazy provisioning pass over the
possible TX queues (tx.c lines 580-594, with `efx_probe_tx_queue` and
`efx_init_tx_queue` from tx_common.c modelled as setting the allocated
and initialised flags).  Stops at the first failing probe, keeping
earlier provisioning, and returns its error. -/
def provisionHighpri (env : SetupTcEnv) :
    List AdminQueue → Int × List AdminQueue
  | [] => (0, [])
  | tq :: rest =>
    if tq.highpri then
      if tq.allocated = false ∧ env.probe_ok = false then
        (-12, tq :: rest)
      else
        let tq2 := { tq with allocated := true, initialised := true,
                             core_bound := true }
        let w := provisionHighpri env rest
        (w.1, tq2 :: w.2)
    else
      let w := provisionHighpri env rest
      (w.1, tq :: w.2)

/-- Common tail of `efx_setup_tc` (tx.c lines 600-613):
`netif_set_real_num_tx_queues` (modelled by the environment flag) then
the final advertisement of the class count. -/
def setupTcFinish (env : SetupTcEnv) (efx : EfxNic) (nd : NetDev)
    (queues : List AdminQueue) (num_tc : Nat) : SetupTcResult :=
  if env.set_real_ok then
    { rc := 0,
      nd := { nd with
        real_num_tx_queues := max num_tc 1 * efx.n_tx_channels,
        num_tc := num_tc },
      queues := queues }
  else { rc := -12, nd := nd, queues := queues }

/-- The traffic-class reconfiguration `efx_setup_tc` (tx.c lines
550-614): reject non-MQPRIO requests and class counts above the
maximum; a no-change request succeeds immediately; otherwise rewrite
the per-class queue mapping, provision high-priority queues when the
class count grows (lowering the advertised count only afterwards), or
lower the advertised class count first when it shrinks, leaving every
existing queue allocated. -/
def efx_setup_tc (env : SetupTcEnv) (efx : EfxNic)
    (queues : List AdminQueue) (nd : NetDev) (ty : TcSetupType)
    (num_tc : Nat) : SetupTcResult :=
  if ty ≠ TcSetupType.mqprio then { rc := -95, nd := nd, queues := queues }
  else if EFX_MAX_TX_TC < num_tc then
    { rc := -22, nd := nd, queues := queues }
  else if num_tc = nd.num_tc then { rc := 0, nd := nd, queues := queues }
  else
    let nd1 : NetDev := { nd with
      tc_to_txq := fun tc =>
        if tc < num_tc then (tc * efx.n_tx_channels, efx.n_tx_channels)
        else nd.tc_to_txq tc }
    if nd.num_tc < num_tc then
      let w := provisionHighpri env queues
      if w.1 ≠ 0 then { rc := w.1, nd := nd1, queues := w.2 }
      else setupTcFinish env efx nd1 w.2 num_tc
    else
      setupTcFinish env efx { nd1 with num_tc := num_tc } queues num_tc

/-! ## Helper lemmas -/

theorem u32sub_eq_sub (a b : Nat) (hle : b ≤ a) (hlt : a - b < U32) :
    u32sub a b = a - b := by
  unfold u32sub U32 at *
  omega

theorem staleFill_after_reread (q1 q2 : TxQueue) :
    staleFill { q1 with stopped := true, old_read_count := q1.read_count }
              { q2 with old_read_count := q2.read_count }
      = freshFill q1 q2 := by
  simp [staleFill, freshFill]

theorem maybe_stop_insert (efx : EfxNic) (q1 q2 : TxQueue) :
    (efx_tx_maybe_stop_queue efx q1 q2).1.insert_count = q1.insert_count := by
  unfold efx_tx_maybe_stop_queue
  dsimp only
  repeat' split
  all_goals rfl

theorem maybe_stop_buffers (efx : EfxNic) (q1 q2 : TxQueue) :
    (efx_tx_maybe_stop_queue efx q1 q2).1.buffers = q1.buffers := by
  unfold efx_tx_maybe_stop_queue
  dsimp only
  repeat' split
  all_goals rfl

theorem maybe_stop_tso_fallbacks (efx : EfxNic) (q1 q2 : TxQueue) :
    (efx_tx_maybe_stop_queue efx q1 q2).1.tso_fallbacks
      = q1.tso_fallbacks := by
  unfold efx_tx_maybe_stop_queue
  dsimp only
  repeat' split
  all_goals rfl

theorem enqueueTail_ret (env : PlaceEnv) (efx : EfxNic)
    (q partner : TxQueue) (segments : Nat) (path : TxPath) :
    (enqueueTail env efx q partner segments path).ret = 0 := rfl

theorem enqueueTail_failed (env : PlaceEnv) (efx : EfxNic)
    (q partner : TxQueue) (segments : Nat) (path : TxPath) :
    (enqueueTail env efx q partner segments path).failed = false := rfl

theorem enqueueTail_path (env : PlaceEnv) (efx : EfxNic)
    (q partner : TxQueue) (segments : Nat) (path : TxPath) :
    (enqueueTail env efx q partner segments path).path = some path := rfl

theorem enqueueErr_ret (env : PlaceEnv) (q partner : TxQueue) (skb : Skb)
    (old_insert : Nat) (path : TxPath) :
    (enqueueErr env q partner skb old_insert path).ret = 0 := rfl

theorem enqueueErr_failed (env : PlaceEnv) (q partner : TxQueue)
    (skb : Skb) (old_insert : Nat) (path : TxPath) :
    (enqueueErr env q partner skb old_insert path).failed = true := rfl

theorem enqueueErr_freed (env : PlaceEnv) (q partner : TxQueue)
    (skb : Skb) (old_insert : Nat) (path : TxPath) :
    (enqueueErr env q partner skb old_insert path).freed = [skb.id] := rfl

theorem enqueueErr_path (env : PlaceEnv) (q partner : TxQueue) (skb : Skb)
    (old_insert : Nat) (path : TxPath) :
    (enqueueErr env q partner skb old_insert path).path
      = some path := rfl

theorem enqueueErr_q_insert (env : PlaceEnv) (q partner : TxQueue)
    (skb : Skb) (old_insert : Nat) (path : TxPath) :
    (enqueueErr env q partner skb old_insert path).q.insert_count
      = old_insert := by
  unfold enqueueErr efx_enqueue_unwind efx_nic_push_buffers
  dsimp only
  repeat' split
  all_goals rfl

theorem enqueueErr_q_buffers (env : PlaceEnv) (q partner : TxQueue)
    (skb : Skb) (old_insert : Nat) (path : TxPath) (i : Nat) :
    (enqueueErr env q partner skb old_insert path).q.buffers i
      = if old_insert ≤ i ∧ i < q.insert_count then TxBuffer.cleared
        else q.buffers i := by
  unfold enqueueErr efx_enqueue_unwind efx_nic_push_buffers
  dsimp only
  repeat' split
  all_goals first | rfl | simp_all

theorem enqueueTail_q_insert (env : PlaceEnv) (efx : EfxNic)
    (q partner : TxQueue) (segments : Nat) (path : TxPath) :
    (enqueueTail env efx q partner segments path).q.insert_count
      = q.insert_count := by
  unfold enqueueTail efx_nic_push_buffers
  dsimp only
  repeat' split
  all_goals first | rfl | simp [maybe_stop_insert]

theorem enqueue_skb_nongso (env : PlaceEnv) (t : TsoEnv) (efx : EfxNic)
    (q partner : TxQueue) (skb : Skb) (h : segCount skb = 0) :
    efx_enqueue_skb env t efx q partner skb
      = enqueuePlace env efx q partner skb := by
  unfold efx_enqueue_skb
  simp [h]

theorem enqueuePlace_ret (env : PlaceEnv) (efx : EfxNic)
    (q partner : TxQueue) (skb : Skb) :
    (enqueuePlace env efx q partner skb).ret = 0 := by
  unfold enqueuePlace
  dsimp only
  repeat' split
  all_goals rfl

theorem xdpAppend_insert (q : TxQueue) (f : XdpFrame) :
    (xdpAppend q f).insert_count = q.insert_count + 1 := rfl

theorem xdpAppend_buffers (q : TxQueue) (f : XdpFrame) (j : Nat) :
    (xdpAppend q f).buffers j
      = if j = q.insert_count then
          { kind := .rawFrame, len := f.len, unmap_len := f.len,
            skb := none,
            xdpf := some f.id : TxBuffer }
        else q.buffers j := by
  unfold xdpAppend appendBufWith
  dsimp only

theorem xdpTxLoop_count_mappable (s : Nat) (frames : List XdpFrame)
    (q : TxQueue) (i : Nat)
    (hmap : ∀ f ∈ frames, f.mappable = true) :
    (xdpTxLoop (s : Int) q frames i).2
      = min (i + frames.length) (max i s) := by
  induction frames generalizing q i with
  | nil =>
    simp only [xdpTxLoop, List.length_nil]
    omega
  | cons f rest ih =>
    rw [xdpTxLoop]
    by_cases hs : (s : Int) ≤ (i : Int)
    · rw [if_pos hs]
      have : s ≤ i := by exact_mod_cast hs
      simp only [List.length_cons]
      omega
    · rw [if_neg hs, if_pos (hmap f (by simp))]
      rw [ih (xdpAppend q f) (i + 1) (fun g hg => hmap g (by simp [hg]))]
      have : i < s := by omega
      simp only [List.length_cons]
      omega

theorem xdpTxLoop_insert (s : Int) (frames : List XdpFrame)
    (q : TxQueue) (i : Nat) :
    (xdpTxLoop s q frames i).1.insert_count + i
      = q.insert_count + (xdpTxLoop s q frames i).2 := by
  induction frames generalizing q i with
  | nil => simp [xdpTxLoop]
  | cons f rest ih =>
    rw [xdpTxLoop]
    by_cases hs : s ≤ (i : Int)
    · rw [if_pos hs]
    · rw [if_neg hs]
      by_cases hm : f.mappable = true
      · rw [if_pos hm]
        have h2 := ih (xdpAppend q f) (i + 1)
        rw [xdpAppend_insert] at h2
        omega
      · rw [if_neg hm]

theorem xdpTxLoop_buffers_lt (s : Int) (frames : List XdpFrame)
    (q : TxQueue) (i j : Nat) (hj : j < q.insert_count) :
    (xdpTxLoop s q frames i).1.buffers j = q.buffers j := by
  induction frames generalizing q i with
  | nil => rfl
  | cons f rest ih =>
    rw [xdpTxLoop]
    by_cases hs : s ≤ (i : Int)
    · rw [if_pos hs]
    · rw [if_neg hs]
      by_cases hm : f.mappable = true
      · rw [if_pos hm]
        rw [ih (xdpAppend q f) (i + 1) (by rw [xdpAppend_insert]; omega)]
        rw [xdpAppend_buffers, if_neg (by omega)]
      · rw [if_neg hm]

theorem xdpTxLoop_buffers_kind (s : Int) (frames : List XdpFrame)
    (q : TxQueue) (i j : Nat) (hlo : q.insert_count ≤ j)
    (hhi : j < (xdpTxLoop s q frames i).1.insert_count) :
    ((xdpTxLoop s q frames i).1.buffers j).kind = BufKind.rawFrame := by
  induction frames generalizing q i with
  | nil =>
    exfalso
    simp only [xdpTxLoop] at hhi
    omega
  | cons f rest ih =>
    rw [xdpTxLoop] at hhi ⊢
    by_cases hs : s ≤ (i : Int)
    · rw [if_pos hs] at hhi ⊢
      dsimp only at hhi
      exact absurd hhi (by omega)
    · rw [if_neg hs] at hhi ⊢
      by_cases hm : f.mappable = true
      · rw [if_pos hm] at hhi ⊢
        rcases Nat.eq_or_lt_of_le hlo with heq | hlt
        · rw [xdpTxLoop_buffers_lt _ _ _ _ _
            (by rw [xdpAppend_insert]; omega)]
          rw [xdpAppend_buffers, if_pos heq.symm]
        · exact ih (xdpAppend q f) (i + 1)
            (by rw [xdpAppend_insert]; omega) hhi
      · rw [if_neg hm] at hhi ⊢
        dsimp only at hhi
        exact absurd hhi (by omega)

theorem xdpTxLoop_stop_at_unmappable (s : Int) (good : List XdpFrame)
    (bad : XdpFrame) (rest : List XdpFrame) (q : TxQueue) (i : Nat)
    (hbad : bad.mappable = false) :
    xdpTxLoop s q (good ++ bad :: rest) i = xdpTxLoop s q good i := by
  induction good generalizing q i with
  | nil =>
    rw [List.nil_append,
      show xdpTxLoop s q [] i = (q, i) from rfl, xdpTxLoop]
    by_cases hs : s ≤ (i : Int)
    · rw [if_pos hs]
    · rw [if_neg hs, if_neg (by simp [hbad])]
  | cons g gs ih =>
    rw [List.cons_append, xdpTxLoop]
    conv_rhs => rw [xdpTxLoop]
    by_cases hs : s ≤ (i : Int)
    · rw [if_pos hs, if_pos hs]
    · rw [if_neg hs, if_neg hs]
      by_cases hm : g.mappable = true
      · rw [if_pos hm, if_pos hm]
        exact ih (xdpAppend q g) (i + 1)
      · rw [if_neg hm, if_neg hm]

theorem appendBufWith_insert (q : TxQueue) (f : TxBuffer → TxBuffer) :
    (appendBufWith q f).insert_count = q.insert_count + 1 := rfl

theorem appendBufWith_buffers_ne (q : TxQueue) (f : TxBuffer → TxBuffer)
    (i : Nat) (h : i ≠ q.insert_count) :
    (appendBufWith q f).buffers i = q.buffers i := by
  unfold appendBufWith
  dsimp only
  rw [if_neg h]

theorem appendDescs_insert (bs : List TxBuffer) (q : TxQueue) :
    (appendDescs q bs).insert_count = q.insert_count + bs.length := by
  induction bs generalizing q with
  | nil => rfl
  | cons b rest ih =>
    show (appendDescs (appendBufWith q fun _ => b) rest).insert_count = _
    rw [ih, appendBufWith_insert, List.length_cons]
    omega

theorem appendDescs_buffers_ge (bs : List TxBuffer) (q : TxQueue)
    (i : Nat) (h : q.insert_count + bs.length ≤ i) :
    (appendDescs q bs).buffers i = q.buffers i := by
  induction bs generalizing q with
  | nil => rfl
  | cons b rest ih =>
    rw [List.length_cons] at h
    show (appendDescs (appendBufWith q fun _ => b) rest).buffers i = _
    rw [ih _ (by rw [appendBufWith_insert]; omega)]
    exact appendBufWith_buffers_ne q _ i (by omega)

theorem appendDescs_tso_fallbacks (bs : List TxBuffer) (q : TxQueue) :
    (appendDescs q bs).tso_fallbacks = q.tso_fallbacks := by
  induction bs generalizing q with
  | nil => rfl
  | cons b rest ih =>
    show (appendDescs (appendBufWith q fun _ => b) rest).tso_fallbacks = _
    rw [ih]
    rfl

theorem mapFrags_insert_ge (sid : Nat) (fs : List Frag) (q : TxQueue) :
    q.insert_count ≤ (mapFrags sid q fs).2.insert_count := by
  induction fs generalizing q with
  | nil => exact le_refl _
  | cons f rest ih =>
    rw [mapFrags]
    by_cases hm : f.mappable = true
    · rw [if_pos hm]
      exact le_trans (by rw [appendBufWith_insert]; omega) (ih _)
    · rw [if_neg hm]

theorem mapFrags_buffers_ge (sid : Nat) (fs : List Frag) (q : TxQueue)
    (i : Nat) (h : (mapFrags sid q fs).2.insert_count ≤ i) :
    (mapFrags sid q fs).2.buffers i = q.buffers i := by
  induction fs generalizing q with
  | nil => rfl
  | cons f rest ih =>
    rw [mapFrags] at h ⊢
    by_cases hm : f.mappable = true
    · rw [if_pos hm] at h ⊢
      have hmono := mapFrags_insert_ge sid rest (appendBufWith q fun b =>
        { b with kind := .deviceMapped, len := f.len, unmap_len := f.len,
                 skb := if rest.isEmpty then some sid else b.skb })
      rw [appendBufWith_insert] at hmono
      rw [ih _ h]
      exact appendBufWith_buffers_ne q _ i (by omega)
    · rw [if_neg hm] at h ⊢

theorem mapFrags_tso_fallbacks (sid : Nat) (fs : List Frag)
    (q : TxQueue) :
    (mapFrags sid q fs).2.tso_fallbacks = q.tso_fallbacks := by
  induction fs generalizing q with
  | nil => rfl
  | cons f rest ih =>
    rw [mapFrags]
    by_cases hm : f.mappable = true
    · rw [if_pos hm, ih]
      rfl
    · rw [if_neg hm]

theorem enqueueErr_tso_fallbacks (env : PlaceEnv) (q partner : TxQueue)
    (skb : Skb) (old_insert : Nat) (path : TxPath) :
    (enqueueErr env q partner skb old_insert path).q.tso_fallbacks
      = q.tso_fallbacks := by
  unfold enqueueErr efx_enqueue_unwind efx_nic_push_buffers
  dsimp only
  repeat' split
  all_goals rfl

theorem enqueueTail_tso_fallbacks (env : PlaceEnv) (efx : EfxNic)
    (q partner : TxQueue) (segments : Nat) (path : TxPath) :
    (enqueueTail env efx q partner segments path).q.tso_fallbacks
      = q.tso_fallbacks := by
  unfold enqueueTail efx_nic_push_buffers
  dsimp only
  repeat' split
  all_goals first | rfl | simp [maybe_stop_tso_fallbacks]

theorem enqueuePlace_tso_fallbacks (env : PlaceEnv) (efx : EfxNic)
    (q partner : TxQueue) (skb : Skb) :
    (enqueuePlace env efx q partner skb).q.tso_fallbacks
      = q.tso_fallbacks := by
  unfold enqueuePlace efx_enqueue_skb_pio efx_enqueue_skb_copy
    efx_tx_map_data
  dsimp only
  repeat' split
  all_goals
    simp [enqueueTail_tso_fallbacks, enqueueErr_tso_fallbacks,
      mapFrags_tso_fallbacks, appendBufWith]

theorem resubmitSegs_tso_fallbacks (efx : EfxNic)
    (segs : List (Skb × PlaceEnv)) (q partner : TxQueue)
    (freed : List Nat) (pushes : Nat) :
    (resubmitSegs efx segs q partner freed pushes).1.tso_fallbacks
      = q.tso_fallbacks := by
  induction segs generalizing q partner freed pushes with
  | nil => rfl
  | cons se rest ih =>
    rcases se with ⟨s, e⟩
    rw [resubmitSegs, ih]
    exact enqueuePlace_tso_fallbacks e efx q partner s

theorem resubmitSegsFull_eq (efx : EfxNic) (segs : List (Skb × PlaceEnv))
    (q partner : TxQueue) (freed : List Nat) (pushes : Nat)
    (hng : ∀ se ∈ segs, segCount se.1 = 0) :
    resubmitSegsFull efx segs q partner freed pushes
      = resubmitSegs efx segs q partner freed pushes := by
  induction segs generalizing q partner freed pushes with
  | nil => rfl
  | cons se rest ih =>
    rcases se with ⟨s, e⟩
    rw [resubmitSegsFull, resubmitSegs,
      enqueue_skb_nongso e { : TsoEnv } efx q partner s
        (hng (s, e) (by simp))]
    exact ih _ _ _ _ (fun x hx => hng x (by simp [hx]))

theorem enqueueErr_unwound (env : PlaceEnv) (q0 qf partner : TxQueue)
    (skb : Skb) (path : TxPath)
    (hup : ∀ i, qf.insert_count ≤ i → qf.buffers i = q0.buffers i) :
    (enqueueErr env qf partner skb q0.insert_count path).q.insert_count
      = q0.insert_count
    ∧ (∀ i, q0.insert_count ≤ i →
        (enqueueErr env qf partner skb q0.insert_count path).q.buffers i
          = TxBuffer.cleared
        ∨ (enqueueErr env qf partner skb q0.insert_count path).q.buffers i
          = q0.buffers i)
    ∧ skb.id ∈ (enqueueErr env qf partner skb q0.insert_count path).freed
    := by
  refine ⟨enqueueErr_q_insert .., ?_, ?_⟩
  · intro i hi
    rw [enqueueErr_q_buffers]
    by_cases hin : q0.insert_count ≤ i ∧ i < qf.insert_count
    · rw [if_pos hin]
      exact Or.inl rfl
    · rw [if_neg hin]
      right
      exact hup i (by omega)
  · rw [enqueueErr_freed]
    simp

theorem enqueuePlace_unwind (env : PlaceEnv) (efx : EfxNic)
    (q partner : TxQueue) (skb : Skb)
    (hfail : (enqueuePlace env efx q partner skb).failed = true) :
    (enqueuePlace env efx q partner skb).q.insert_count = q.insert_count
    ∧ (∀ i, q.insert_count ≤ i →
        (enqueuePlace env efx q partner skb).q.buffers i
          = TxBuffer.cleared
        ∨ (enqueuePlace env efx q partner skb).q.buffers i = q.buffers i)
    ∧ skb.id ∈ (enqueuePlace env efx q partner skb).freed := by
  unfold enqueuePlace at hfail ⊢
  dsimp only at hfail ⊢
  by_cases hpio : skb.len ≤ efx_piobuf_size ∧ env.xmit_more = false ∧
      efx_nic_may_tx_pio env.has_piobuf q = true
  · rw [if_pos hpio, if_neg (by simp [efx_enqueue_skb_pio])] at hfail
    rw [enqueueTail_failed] at hfail
    exact absurd hfail (by simp)
  · rw [if_neg hpio] at hfail ⊢
    by_cases hcopy : skb.data_len ≠ 0 ∧ skb.len ≤ EFX_TX_CB_SIZE
    · rw [if_pos hcopy] at hfail ⊢
      by_cases hcb : env.cb_alloc_ok = true
      · rw [if_neg (by simp [efx_enqueue_skb_copy, hcb])] at hfail
        rw [enqueueTail_failed] at hfail
        exact absurd hfail (by simp)
      · have hr : efx_enqueue_skb_copy env.cb_alloc_ok q skb
            = (-12, q) := by
          unfold efx_enqueue_skb_copy
          rw [if_pos (by simpa using hcb)]
        rw [hr] at hfail ⊢
        rw [if_pos (by norm_num)] at hfail ⊢
        exact enqueueErr_unwound env q q partner skb .copyPath
          (fun i _ => rfl)
    · rw [if_neg hcopy] at hfail ⊢
      by_cases hmap : (efx_tx_map_data q skb).1 = 0
      · rw [if_neg (by simp [hmap])] at hfail
        rw [enqueueTail_failed] at hfail
        exact absurd hfail (by simp)
      · rw [if_pos hmap] at hfail ⊢
        exact enqueueErr_unwound env q (efx_tx_map_data q skb).2 partner
          skb .dmaPath
          (fun i hi => mapFrags_buffers_ge skb.id skb.frags q i hi)

/-! ## Claim theorems -/

/-- C1: if the stop branch of the backpressure check is taken (stale
fill at or above the stop threshold) and the barrier-ordered re-read
of both queues' true read counts yields a fresh fill below the
threshold, the queue ends Open exactly when loopback self-test mode is
off: it is restarted unless that suppression mode is active, and it is
never left stopped with fresh fill below threshold except under the
suppression mode. -/
theorem maybe_stop_queue_no_lost_wakeup (efx : EfxNic) (q1 q2 : TxQueue)
    (hstale : ¬ staleFill q1 q2 < efx.txq_stop_thresh)
    (hfresh : freshFill q1 q2 < efx.txq_stop_thresh) :
    (efx_tx_maybe_stop_queue efx q1 q2).1.stopped
      = efx.loopback_selftest := by
  unfold efx_tx_maybe_stop_queue
  rw [if_neg hstale]
  simp only [staleFill_after_reread]
  rw [if_pos hfresh]
  by_cases hl : efx.loopback_selftest = true
  · simp [hl]
  · simp [hl]

/-- Witness for C1 at a concrete state: threshold 14, stale fill 18,
fresh fill 10, loopback off; the queue ends restarted (Open). -/
theorem maybe_stop_queue_no_lost_wakeup_witness :
    (¬ staleFill { insert_count := 20, old_read_count := 2, read_count := 10 }
                 { : TxQueue } < (14 : Nat))
    ∧ freshFill { insert_count := 20, old_read_count := 2, read_count := 10 }
                { : TxQueue } < 14
    ∧ (efx_tx_maybe_stop_queue { txq_entries := 16, txq_stop_thresh := 14 }
        { insert_count := 20, old_read_count := 2, read_count := 10 }
        { : TxQueue }).1.stopped = false := by
  refine ⟨by decide, by decide, ?_⟩
  exact maybe_stop_queue_no_lost_wakeup
    { txq_entries := 16, txq_stop_thresh := 14 }
    { insert_count := 20, old_read_count := 2, read_count := 10 }
    { : TxQueue } (by decide) (by decide)

/-- C2: whenever a placement stage of `efx_enqueue_skb` fails — TSO
descriptor construction, a failing software fallback, PIO, copy, or
DMA mapping — and the error exit is taken, `insert_count` after the
call equals its value recorded at entry, every descriptor slot at or
above the entry insert position is either cleared by the unwind
(kind cleared, no mapping obligation) or untouched by the call, and
the packet is released. -/
theorem enqueue_skb_unwind_on_failure (env : PlaceEnv) (t : TsoEnv)
    (efx : EfxNic) (q partner : TxQueue) (skb : Skb)
    (hfail : (efx_enqueue_skb env t efx q partner skb).failed = true) :
    (efx_enqueue_skb env t efx q partner skb).q.insert_count
      = q.insert_count
    ∧ (∀ i, q.insert_count ≤ i →
        (efx_enqueue_skb env t efx q partner skb).q.buffers i
          = TxBuffer.cleared
        ∨ (efx_enqueue_skb env t efx q partner skb).q.buffers i
          = q.buffers i)
    ∧ skb.id ∈ (efx_enqueue_skb env t efx q partner skb).freed := by
  by_cases hseg : segCount skb ≠ 0
  case neg =>
    rw [enqueue_skb_nongso env t efx q partner skb (by omega)] at hfail ⊢
    exact enqueuePlace_unwind env efx q partner skb hfail
  case pos =>
    unfold efx_enqueue_skb applyHandleTso at hfail ⊢
    dsimp only at hfail ⊢
    rw [if_pos hseg] at hfail ⊢
    by_cases hrc : t.rc = (-22 : Int)
    · rw [if_pos hrc] at hfail ⊢
      unfold efx_tx_tso_fallback at hfail ⊢
      cases hsegs : t.segs with
      | some l =>
        rw [hsegs] at hfail
        dsimp only at hfail
        rw [if_pos rfl] at hfail
        simp at hfail
      | none =>
        rw [hsegs] at hfail
        dsimp only at hfail ⊢
        by_cases herr : t.seg_err = 0
        · rw [if_pos herr] at hfail
          simp at hfail
        · rw [if_neg herr] at hfail ⊢
          have h2 := enqueueErr_unwound env q
            { appendDescs q t.descs with
              tso_fallbacks := (appendDescs q t.descs).tso_fallbacks + 1 }
            partner skb .tsoPath
            (fun i hi => by
              show (appendDescs q t.descs).buffers i = q.buffers i
              apply appendDescs_buffers_ge
              have hai := appendDescs_insert t.descs q
              revert hi
              show (appendDescs q t.descs).insert_count ≤ i → _
              omega)
          refine ⟨h2.1, h2.2.1, ?_⟩
          show skb.id ∈ [] ++ _
          simpa using h2.2.2
    · rw [if_neg hrc] at hfail ⊢
      by_cases hr0 : t.rc = 0
      · rw [if_neg (by simp [hr0])] at hfail ⊢
        by_cases hdm : t.data_mapped = false
        · rw [if_pos hdm] at hfail ⊢
          by_cases hm0 :
              (efx_tx_map_data (appendDescs q t.descs) skb).1 = 0
          · rw [if_neg (by simp [hm0])] at hfail
            rw [enqueueTail_failed] at hfail
            simp at hfail
          · rw [if_pos hm0] at hfail ⊢
            apply enqueueErr_unwound env q
              (efx_tx_map_data (appendDescs q t.descs) skb).2 partner skb
              .tsoPath
            intro i hi
            have hmono := mapFrags_insert_ge skb.id skb.frags
              (appendDescs q t.descs)
            have hai := appendDescs_insert t.descs q
            have hi2 : (mapFrags skb.id (appendDescs q t.descs)
                skb.frags).2.insert_count ≤ i := hi
            show (mapFrags skb.id (appendDescs q t.descs)
              skb.frags).2.buffers i = q.buffers i
            rw [mapFrags_buffers_ge skb.id skb.frags _ i hi2]
            exact appendDescs_buffers_ge t.descs q i (by omega)
        · rw [if_neg hdm] at hfail
          rw [enqueueTail_failed] at hfail
          simp at hfail
      · rw [if_pos hr0] at hfail ⊢
        apply enqueueErr_unwound env q (appendDescs q t.descs) partner
          skb .tsoPath
        intro i hi
        have hai := appendDescs_insert t.descs q
        exact appendDescs_buffers_ge t.descs q i (by omega)

/-- Witness for C2: a 300-byte linear packet whose single fragment
fails to map takes the DMA path and the error exit: the insert count
stays at its entry value 5, slot 5 is left without a mapping
obligation, and the packet is released. -/
theorem enqueue_skb_unwind_on_failure_witness :
    ((efx_enqueue_skb { : PlaceEnv } { : TsoEnv } { : EfxNic }
        { insert_count := 5, read_count := 5 } { : TxQueue }
        { id := 7, len := 300,
          frags := [{ len := 300, mappable := false }] }).failed = true)
    ∧ ((efx_enqueue_skb { : PlaceEnv } { : TsoEnv } { : EfxNic }
        { insert_count := 5, read_count := 5 } { : TxQueue }
        { id := 7, len := 300,
          frags := [{ len := 300, mappable := false }] }).q.insert_count
      = 5)
    ∧ ((efx_enqueue_skb { : PlaceEnv } { : TsoEnv } { : EfxNic }
        { insert_count := 5, read_count := 5 } { : TxQueue }
        { id := 7, len := 300,
          frags := [{ len := 300, mappable := false }] }).q.buffers 5
        = TxBuffer.cleared
      ∨ (efx_enqueue_skb { : PlaceEnv } { : TsoEnv } { : EfxNic }
        { insert_count := 5, read_count := 5 } { : TxQueue }
        { id := 7, len := 300,
          frags := [{ len := 300, mappable := false }] }).q.buffers 5
        = ({ insert_count := 5, read_count := 5 } : TxQueue).buffers 5)
    ∧ 7 ∈ (efx_enqueue_skb { : PlaceEnv } { : TsoEnv } { : EfxNic }
        { insert_count := 5, read_count := 5 } { : TxQueue }
        { id := 7, len := 300,
          frags := [{ len := 300, mappable := false }] }).freed := by
  have h := enqueue_skb_unwind_on_failure { : PlaceEnv } { : TsoEnv }
    { : EfxNic } { insert_count := 5, read_count := 5 } { : TxQueue }
    { id := 7, len := 300, frags := [{ len := 300, mappable := false }] }
    (by decide)
  exact ⟨by decide, h.1, h.2.1 5 (by decide), h.2.2⟩

/-- C3: `efx_enqueue_skb` returns the fixed accepted status
NETDEV_TX_OK (0) on the success path and on every error path, never a
transient-retry signal. -/
theorem enqueue_skb_always_tx_ok (env : PlaceEnv) (t : TsoEnv)
    (efx : EfxNic) (q partner : TxQueue) (skb : Skb) :
    (efx_enqueue_skb env t efx q partner skb).ret = 0 := by
  unfold efx_enqueue_skb
  dsimp only
  repeat' split
  all_goals first
    | rfl
    | simp [enqueuePlace_ret, enqueueTail_ret, enqueueErr_ret]

/-- C10: with a validly bound queue, a zero frame count and any flush
value, `efx_xdp_tx_buffers` returns 0 with the bound queue unchanged,
no frame returned and no doorbell push. -/
theorem xdp_tx_zero_frames (efx : EfxNic)
    (tx_queues : Nat → Option TxQueue) (cpu : Nat)
    (xdpfs : Option (List XdpFrame)) (flush : Bool) (q : TxQueue)
    (hc : efx.xdp_tx_queue_count ≠ 0)
    (hcpu : cpu < efx.xdp_tx_queue_count)
    (hq : tx_queues cpu = some q) :
    efx_xdp_tx_buffers efx tx_queues cpu 0 xdpfs flush
      = { ret := 0, queue := some q } := by
  unfold efx_xdp_tx_buffers
  rw [if_neg (by push_neg; exact ⟨hc, by omega⟩), hq]
  simp

/-- C4: for a non-TSO packet the placement branch is selected exactly
as tx.c lines 345-364 order it: the programmed-write (PIO) path when
the packet fits the PIO threshold, no further submission is pending
and PIO resources are available on an empty queue — appending exactly
one descriptor; otherwise the copy-coalesce path when the packet is
fragmented (nonzero data_len) and its total length fits the copy
threshold; otherwise generic DMA mapping. -/
theorem enqueue_skb_fast_path_selection (env : PlaceEnv) (t : TsoEnv)
    (efx : EfxNic) (q partner : TxQueue) (skb : Skb)
    (hseg : segCount skb = 0) :
    ((skb.len ≤ efx_piobuf_size ∧ env.xmit_more = false ∧
        efx_nic_may_tx_pio env.has_piobuf q = true) →
      (efx_enqueue_skb env t efx q partner skb).path
          = some TxPath.pioPath
      ∧ (efx_enqueue_skb env t efx q partner skb).q.insert_count
          = q.insert_count + 1)
    ∧ (¬ (skb.len ≤ efx_piobuf_size ∧ env.xmit_more = false ∧
        efx_nic_may_tx_pio env.has_piobuf q = true) →
      (skb.data_len ≠ 0 ∧ skb.len ≤ EFX_TX_CB_SIZE) →
      (efx_enqueue_skb env t efx q partner skb).path
          = some TxPath.copyPath)
    ∧ (¬ (skb.len ≤ efx_piobuf_size ∧ env.xmit_more = false ∧
        efx_nic_may_tx_pio env.has_piobuf q = true) →
      ¬ (skb.data_len ≠ 0 ∧ skb.len ≤ EFX_TX_CB_SIZE) →
      (efx_enqueue_skb env t efx q partner skb).path
          = some TxPath.dmaPath) := by
  rw [enqueue_skb_nongso env t efx q partner skb hseg]
  unfold enqueuePlace
  refine ⟨fun hpio => ?_, fun hnpio hcopy => ?_, fun hnpio hncopy => ?_⟩
  · rw [if_pos hpio]
    dsimp only
    rw [if_neg (by simp [efx_enqueue_skb_pio])]
    refine ⟨enqueueTail_path .., ?_⟩
    rw [enqueueTail_q_insert]
    simp [efx_enqueue_skb_pio, appendBufWith]
  · rw [if_neg hnpio, if_pos hcopy]
    dsimp only
    split
    · exact enqueueErr_path ..
    · exact enqueueTail_path ..
  · rw [if_neg hnpio, if_neg hncopy]
    dsimp only
    split
    · exact enqueueErr_path ..
    · exact enqueueTail_path ..

/-- Witness for C4: a 60-byte packet on an empty queue with PIO
resources takes the PIO path appending one descriptor; a fragmented
100-byte packet without PIO takes the copy path; a 600-byte linear
packet takes the DMA path. -/
theorem enqueue_skb_fast_path_selection_witness :
    ((efx_enqueue_skb { has_piobuf := true } { : TsoEnv } { : EfxNic }
        { : TxQueue } { : TxQueue } { id := 1, len := 60 }).path
      = some TxPath.pioPath)
    ∧ ((efx_enqueue_skb { has_piobuf := true } { : TsoEnv } { : EfxNic }
        { : TxQueue } { : TxQueue } { id := 1, len := 60 }).q.insert_count
      = 1)
    ∧ ((efx_enqueue_skb { : PlaceEnv } { : TsoEnv } { : EfxNic }
        { : TxQueue } { : TxQueue }
        { id := 2, len := 100, data_len := 40 }).path
      = some TxPath.copyPath)
    ∧ ((efx_enqueue_skb { : PlaceEnv } { : TsoEnv } { : EfxNic }
        { : TxQueue } { : TxQueue }
        { id := 3, len := 600, frags := [{ len := 600 }] }).path
      = some TxPath.dmaPath) := by
  have h1 := enqueue_skb_fast_path_selection { has_piobuf := true }
    { : TsoEnv } { : EfxNic } { : TxQueue } { : TxQueue }
    { id := 1, len := 60 } (by decide)
  have h2 := enqueue_skb_fast_path_selection { : PlaceEnv }
    { : TsoEnv } { : EfxNic } { : TxQueue } { : TxQueue }
    { id := 2, len := 100, data_len := 40 } (by decide)
  have h3 := enqueue_skb_fast_path_selection { : PlaceEnv }
    { : TsoEnv } { : EfxNic } { : TxQueue } { : TxQueue }
    { id := 3, len := 600, frags := [{ len := 600 }] } (by decide)
  refine ⟨(h1.1 (by decide)).1, (h1.1 (by decide)).2,
    h2.2.1 (by decide) (by decide), h3.2.2 (by decide) (by decide)⟩

/-- C8: `efx_xdp_tx_buffers` returns -EINVAL without mutating any
queue state when no queue is bound to the calling execution context
(no XDP queues, CPU beyond the queue-table range, or an unbound slot)
or when the frame count is nonzero with a null frame array; and it
returns -EIO whenever the loop queued zero frames despite a nonzero
validated request. -/
theorem xdp_tx_validation_errors (efx : EfxNic)
    (tx_queues : Nat → Option TxQueue) (cpu n : Nat)
    (xdpfs : Option (List XdpFrame)) (flush : Bool) :
    ((efx.xdp_tx_queue_count = 0 ∨ efx.xdp_tx_queue_count ≤ cpu) →
      efx_xdp_tx_buffers efx tx_queues cpu n xdpfs flush = { ret := -22 })
    ∧ (cpu < efx.xdp_tx_queue_count → tx_queues cpu = none →
      efx_xdp_tx_buffers efx tx_queues cpu n xdpfs flush = { ret := -22 })
    ∧ (∀ q, cpu < efx.xdp_tx_queue_count → tx_queues cpu = some q →
      n ≠ 0 → xdpfs = none →
      efx_xdp_tx_buffers efx tx_queues cpu n xdpfs flush
        = { ret := -22, queue := some q })
    ∧ (∀ q fs, cpu < efx.xdp_tx_queue_count → tx_queues cpu = some q →
      n ≠ 0 → xdpfs = some fs →
      (xdpTxLoop ((efx.txq_entries : Int) + (q.read_count : Int)
          - (q.insert_count : Int)) q (fs.take n) 0).2 = 0 →
      (efx_xdp_tx_buffers efx tx_queues cpu n xdpfs flush).ret = -5) := by
  refine ⟨?_, ?_, ?_, ?_⟩
  · intro h
    unfold efx_xdp_tx_buffers
    rw [if_pos h]
  · intro hcpu hnone
    unfold efx_xdp_tx_buffers
    rw [if_neg (by omega), hnone]
  · intro q hcpu hq hn hfs
    unfold efx_xdp_tx_buffers
    rw [if_neg (by omega), hq]
    simp [hn, hfs]
  · intro q fs hcpu hq hn hfs hloop
    unfold efx_xdp_tx_buffers
    rw [if_neg (by omega), hq]
    simp only [hfs, hn]
    simp [hloop]

/-- Witness for C8: the unbound-context, null-array and zero-queued
cases each produce the stated error on a concrete call. -/
theorem xdp_tx_validation_errors_witness :
    (efx_xdp_tx_buffers { : EfxNic } (fun _ => none) 0 1 none false
        = { ret := -22 })
    ∧ (efx_xdp_tx_buffers { xdp_tx_queue_count := 1 }
        (fun _ => some { : TxQueue }) 0 1 none false
        = { ret := -22, queue := some { : TxQueue } })
    ∧ ((efx_xdp_tx_buffers { txq_entries := 4, xdp_tx_queue_count := 1 }
        (fun _ => some { : TxQueue }) 0 1
        (some [{ id := 3, len := 64, mappable := false }]) false).ret
        = -5) := by
  refine ⟨?_, ?_, ?_⟩
  · exact (xdp_tx_validation_errors { : EfxNic } (fun _ => none) 0 1
      none false).1 (Or.inl rfl)
  · exact (xdp_tx_validation_errors { xdp_tx_queue_count := 1 }
      (fun _ => some { : TxQueue }) 0 1 none false).2.2.1 { : TxQueue }
      (by decide) rfl (by decide) rfl
  · exact (xdp_tx_validation_errors { txq_entries := 4, xdp_tx_queue_count := 1 }
      (fun _ => some { : TxQueue }) 0 1
      (some [{ id := 3, len := 64, mappable := false }]) false).2.2.2
      { : TxQueue } [{ id := 3, len := 64, mappable := false }]
      (by decide) rfl (by decide) rfl (by decide)

/-- C9: a valid MQPRIO call that decreases the traffic-class count
changes only the advertised class count, the per-class queue mapping
and the advertised real queue count: the TX queue list is returned
exactly as given — no queue freed, drained or de-initialised — and
mapping entries of classes at or above the new count are untouched. -/
theorem setup_tc_decrease_keeps_queues (env : SetupTcEnv) (efx : EfxNic)
    (queues : List AdminQueue) (nd : NetDev) (num_tc : Nat)
    (hmax : num_tc ≤ EFX_MAX_TX_TC) (hdec : num_tc < nd.num_tc) :
    (efx_setup_tc env efx queues nd TcSetupType.mqprio num_tc).queues
      = queues
    ∧ (env.set_real_ok = true →
      (efx_setup_tc env efx queues nd TcSetupType.mqprio num_tc).rc = 0
      ∧ (efx_setup_tc env efx queues nd TcSetupType.mqprio num_tc).nd.num_tc
        = num_tc
      ∧ (efx_setup_tc env efx queues nd
          TcSetupType.mqprio num_tc).nd.real_num_tx_queues
        = max num_tc 1 * efx.n_tx_channels)
    ∧ (∀ tc, num_tc ≤ tc →
      (efx_setup_tc env efx queues nd
        TcSetupType.mqprio num_tc).nd.tc_to_txq tc = nd.tc_to_txq tc) := by
  unfold efx_setup_tc setupTcFinish
  rw [if_neg (by simp), if_neg (by omega), if_neg (by omega),
      if_neg (by omega)]
  dsimp only
  by_cases hok : env.set_real_ok = true
  · rw [if_pos hok]
    refine ⟨rfl, fun _ => ⟨rfl, rfl, rfl⟩, fun tc htc => ?_⟩
    simp [if_neg (by omega : ¬ tc < num_tc)]
  · rw [if_neg hok]
    refine ⟨rfl, fun h => absurd h hok, fun tc htc => ?_⟩
    simp [if_neg (by omega : ¬ tc < num_tc)]

/-- Witness for C9: dropping from two classes to one leaves the single
allocated high-priority queue exactly as it was. -/
theorem setup_tc_decrease_keeps_queues_witness :
    ((efx_setup_tc { : SetupTcEnv } { n_tx_channels := 3 }
        [{ highpri := true, allocated := true, initialised := true }]
        { num_tc := 2 } TcSetupType.mqprio 1).queues
      = [{ highpri := true, allocated := true, initialised := true }])
    ∧ (efx_setup_tc { : SetupTcEnv } { n_tx_channels := 3 }
        [{ highpri := true, allocated := true, initialised := true }]
        { num_tc := 2 } TcSetupType.mqprio 1).nd.num_tc = 1 := by
  have h := setup_tc_decrease_keeps_queues { : SetupTcEnv }
    { n_tx_channels := 3 }
    [{ highpri := true, allocated := true, initialised := true }]
    { num_tc := 2 } 1 (by decide) (by decide)
  exact ⟨h.1, (h.2.1 rfl).2.1⟩

/-- C5: for a multi-segment GSO packet whose TSO handler reports
-EINVAL, `efx_enqueue_skb` performs software segmentation; when
segmentation yields the segments, the original packet is released,
every segment is resubmitted through `efx_enqueue_skb` (the
`resubmitSegsFull` walk), the `tso_fallbacks` counter is incremented
by exactly 1, and the call reports acceptance; any other nonzero TSO
error instead aborts the submission through the unwind path, restoring
the insert count and releasing the packet. -/
theorem enqueue_skb_tso_fallback_behaviour (env : PlaceEnv) (t : TsoEnv)
    (efx : EfxNic) (q partner : TxQueue) (skb : Skb)
    (hseg : segCount skb ≠ 0) :
    (∀ segs, t.rc = -22 → t.segs = some segs →
      (∀ se ∈ segs, segCount se.1 = 0) →
      (efx_enqueue_skb env t efx q partner skb).ret = 0
      ∧ (efx_enqueue_skb env t efx q partner skb).q
          = { (resubmitSegsFull efx segs (appendDescs q t.descs)
                partner [] 0).1 with
              tso_fallbacks := (resubmitSegsFull efx segs
                (appendDescs q t.descs) partner [] 0).1.tso_fallbacks
                + 1 }
      ∧ (efx_enqueue_skb env t efx q partner skb).q.tso_fallbacks
          = q.tso_fallbacks + 1
      ∧ (efx_enqueue_skb env t efx q partner skb).freed
          = skb.id :: (resubmitSegsFull efx segs (appendDescs q t.descs)
              partner [] 0).2.2.1)
    ∧ (t.rc ≠ 0 → t.rc ≠ -22 →
      (efx_enqueue_skb env t efx q partner skb).q.insert_count
        = q.insert_count
      ∧ skb.id ∈ (efx_enqueue_skb env t efx q partner skb).freed
      ∧ (efx_enqueue_skb env t efx q partner skb).failed = true) := by
  constructor
  · intro segs hrc hsegs hng
    rw [resubmitSegsFull_eq efx segs (appendDescs q t.descs) partner
      [] 0 hng]
    unfold efx_enqueue_skb applyHandleTso efx_tx_tso_fallback
    dsimp only
    rw [if_pos hseg, if_pos hrc, hsegs]
    dsimp only
    rw [if_pos rfl]
    refine ⟨rfl, rfl, ?_, rfl⟩
    show (resubmitSegs efx segs (appendDescs q t.descs)
        partner [] 0).1.tso_fallbacks + 1 = q.tso_fallbacks + 1
    rw [resubmitSegs_tso_fallbacks, appendDescs_tso_fallbacks]
  · intro hne hrc
    unfold efx_enqueue_skb applyHandleTso
    dsimp only
    rw [if_pos hseg, if_neg hrc, if_pos hne]
    refine ⟨enqueueErr_q_insert .., ?_, enqueueErr_failed ..⟩
    rw [enqueueErr_freed]
    simp

/-- Witness for C5: a two-segment GSO packet with a handler reporting
-EINVAL and one software segment leaves `tso_fallbacks` at 1 and
reports acceptance; a handler reporting -5 on the same packet takes
the unwind path, leaving the insert count at 0, releasing packet 10
and marking the error exit. -/
theorem enqueue_skb_tso_fallback_behaviour_witness :
    ((efx_enqueue_skb { : PlaceEnv }
        { rc := -22,
          segs := some [({ id := 11, len := 60 }, { : PlaceEnv })] }
        { : EfxNic } { : TxQueue } { : TxQueue }
        { id := 10, len := 3000, is_gso := true,
          gso_segs := 2 }).q.tso_fallbacks = 1)
    ∧ ((efx_enqueue_skb { : PlaceEnv }
        { rc := -22,
          segs := some [({ id := 11, len := 60 }, { : PlaceEnv })] }
        { : EfxNic } { : TxQueue } { : TxQueue }
        { id := 10, len := 3000, is_gso := true,
          gso_segs := 2 }).ret = 0)
    ∧ ((efx_enqueue_skb { : PlaceEnv } { rc := -5 } { : EfxNic }
        { : TxQueue } { : TxQueue }
        { id := 10, len := 3000, is_gso := true,
          gso_segs := 2 }).q.insert_count = 0)
    ∧ (10 ∈ (efx_enqueue_skb { : PlaceEnv } { rc := -5 } { : EfxNic }
        { : TxQueue } { : TxQueue }
        { id := 10, len := 3000, is_gso := true,
          gso_segs := 2 }).freed)
    ∧ ((efx_enqueue_skb { : PlaceEnv } { rc := -5 } { : EfxNic }
        { : TxQueue } { : TxQueue }
        { id := 10, len := 3000, is_gso := true,
          gso_segs := 2 }).failed = true) := by
  have h1 := (enqueue_skb_tso_fallback_behaviour { : PlaceEnv }
    { rc := -22, segs := some [({ id := 11, len := 60 }, { : PlaceEnv })] }
    { : EfxNic } { : TxQueue } { : TxQueue }
    { id := 10, len := 3000, is_gso := true, gso_segs := 2 }
    (by decide)).1 [({ id := 11, len := 60 }, { : PlaceEnv })]
    rfl rfl (by decide)
  have h2 := (enqueue_skb_tso_fallback_behaviour { : PlaceEnv }
    { rc := -5 } { : EfxNic } { : TxQueue } { : TxQueue }
    { id := 10, len := 3000, is_gso := true, gso_segs := 2 }
    (by decide)).2 (by decide) (by decide)
  exact ⟨h1.2.2.1, h1.1, h2.1, h2.2.1, h2.2.2⟩

/-- Counterexample to C6 as stated: with available space s = 0 (full
queue: 2 entries, insert_count 2, read_count 0) and a batch of one
mappable frame, the claim predicts a return of s = 0 with the one
excess frame returned to its origin; the code instead returns -EIO
and hands no frame back (tx.c lines 495-498 return before
efx_xdp_return_frames). -/
theorem xdp_tx_full_queue_cx :
    ¬ (((efx_xdp_tx_buffers { txq_entries := 2, xdp_tx_queue_count := 1 }
          (fun _ => some { insert_count := 2 }) 0 1
          (some [{ id := 5, len := 64 }]) false).ret = 0)
        ∧ ((efx_xdp_tx_buffers { txq_entries := 2, xdp_tx_queue_count := 1 }
          (fun _ => some { insert_count := 2 }) 0 1
          (some [{ id := 5, len := 64 }]) false).returned
          = [{ id := 5, len := 64 }])) := by
  decide

/-- C6 (amended): the batch-limit behaviour holds whenever the
available space s is at least 1: with a bound queue of space s and a
batch of n > s mappable frames, exactly s frames are queued as
RawFrame descriptors, the call returns s, and the remaining n − s
frames are returned to their origin untouched; at s = 0 the code
instead returns -EIO and returns no frames (xdp_tx_full_queue_cx). -/
theorem xdp_tx_batch_space_limit (efx : EfxNic)
    (tx_queues : Nat → Option TxQueue) (cpu : Nat) (q : TxQueue)
    (frames : List XdpFrame) (flush : Bool) (s : Nat)
    (hcpu : cpu < efx.xdp_tx_queue_count) (hq : tx_queues cpu = some q)
    (hspace : (efx.txq_entries : Int) + (q.read_count : Int)
        - (q.insert_count : Int) = (s : Int))
    (hs : 1 ≤ s) (hlt : s < frames.length)
    (hmap : ∀ f ∈ frames, f.mappable = true) :
    (efx_xdp_tx_buffers efx tx_queues cpu frames.length (some frames)
        flush).ret = (s : Int)
    ∧ (efx_xdp_tx_buffers efx tx_queues cpu frames.length (some frames)
        flush).returned = frames.drop s
    ∧ ∃ q2, (efx_xdp_tx_buffers efx tx_queues cpu frames.length
          (some frames) flush).queue = some q2
        ∧ q2.insert_count = q.insert_count + s
        ∧ ∀ j, j < s →
            (q2.buffers (q.insert_count + j)).kind = BufKind.rawFrame := by
  have hn : frames.length ≠ 0 := by omega
  have hcount : (xdpTxLoop ((efx.txq_entries : Int) + (q.read_count : Int)
      - (q.insert_count : Int)) q frames 0).2 = s := by
    rw [hspace, xdpTxLoop_count_mappable s frames q 0 hmap]
    omega
  have hins : (xdpTxLoop ((efx.txq_entries : Int) + (q.read_count : Int)
      - (q.insert_count : Int)) q frames 0).1.insert_count
      = q.insert_count + s := by
    have h2 := xdpTxLoop_insert ((efx.txq_entries : Int) +
      (q.read_count : Int) - (q.insert_count : Int)) frames q 0
    omega
  unfold efx_xdp_tx_buffers
  rw [if_neg (by omega), hq]
  dsimp only
  rw [if_neg (by simp [hn]), if_neg hn]
  simp only [Option.getD_some, List.take_length]
  rw [hcount, if_neg (by omega)]
  refine ⟨rfl, rfl, ?_⟩
  refine ⟨_, rfl, ?_, ?_⟩
  · by_cases hf : (flush = true) ∧ 0 < s
    · rw [if_pos hf]
      exact hins
    · rw [if_neg hf]
      exact hins
  · intro j hj
    have hk := xdpTxLoop_buffers_kind ((efx.txq_entries : Int) +
      (q.read_count : Int) - (q.insert_count : Int)) frames q 0
      (q.insert_count + j) (by omega) (by omega)
    by_cases hf : (flush = true) ∧ 0 < s
    · rw [if_pos hf]
      exact hk
    · rw [if_neg hf]
      exact hk

/-- Witness for C6 (amended): space 3 and five mappable frames yield a
return of 3 with the last two frames handed back. -/
theorem xdp_tx_batch_space_limit_witness :
    ((efx_xdp_tx_buffers { txq_entries := 3, xdp_tx_queue_count := 1 }
        (fun _ => some { : TxQueue }) 0 5
        (some [{ id := 1 }, { id := 2 }, { id := 3 }, { id := 4 },
               { id := 5 }]) true).ret = 3)
    ∧ ((efx_xdp_tx_buffers { txq_entries := 3, xdp_tx_queue_count := 1 }
        (fun _ => some { : TxQueue }) 0 5
        (some [{ id := 1 }, { id := 2 }, { id := 3 }, { id := 4 },
               { id := 5 }]) true).returned
      = [{ id := 4 }, { id := 5 }]) := by
  have h := xdp_tx_batch_space_limit
    { txq_entries := 3, xdp_tx_queue_count := 1 }
    (fun _ => some { : TxQueue }) 0 { : TxQueue }
    [{ id := 1 }, { id := 2 }, { id := 3 }, { id := 4 }, { id := 5 }]
    true 3 (by decide) rfl (by decide) (by decide) (by decide)
    (by decide)
  refine ⟨h.1, h.2.1.trans ?_⟩
  decide

/-- Counterexample to C7 as stated: when DMA mapping fails for the
very first frame (position i = 0), the claim predicts that every frame
from position 0 onward is returned to its origin; the code instead
returns -EIO and hands no frame back (tx.c lines 495-498 return before
efx_xdp_return_frames). -/
theorem xdp_tx_first_map_failure_cx :
    ¬ ((efx_xdp_tx_buffers { txq_entries := 4, xdp_tx_queue_count := 1 }
          (fun _ => some { : TxQueue }) 0 1
          (some [{ id := 9, len := 64, mappable := false }]) false).returned
        = [{ id := 9, len := 64, mappable := false }]) := by
  decide

/-- C7 (amended): when DMA mapping fails at position i with at least
one frame already appended in the batch (i ≥ 1, i within the available
space), processing stops early: the i appended frames are not unwound
— their descriptors remain RawFrame slots and the insert count stays
advanced by i — the call returns i, and every frame from position i
onward is returned to its origin; when i = 0 the code instead returns
-EIO and returns no frames (xdp_tx_first_map_failure_cx). -/
theorem xdp_tx_map_failure_midbatch (efx : EfxNic)
    (tx_queues : Nat → Option TxQueue) (cpu : Nat) (q : TxQueue)
    (good : List XdpFrame) (bad : XdpFrame) (rest : List XdpFrame)
    (flush : Bool) (s : Nat)
    (hcpu : cpu < efx.xdp_tx_queue_count) (hq : tx_queues cpu = some q)
    (hspace : (efx.txq_entries : Int) + (q.read_count : Int)
        - (q.insert_count : Int) = (s : Int))
    (hgood : ∀ f ∈ good, f.mappable = true)
    (hbad : bad.mappable = false)
    (hpos : 1 ≤ good.length) (hlen : good.length < s) :
    (efx_xdp_tx_buffers efx tx_queues cpu (good ++ bad :: rest).length
        (some (good ++ bad :: rest)) flush).ret = (good.length : Int)
    ∧ (efx_xdp_tx_buffers efx tx_queues cpu (good ++ bad :: rest).length
        (some (good ++ bad :: rest)) flush).returned = bad :: rest
    ∧ ∃ q2, (efx_xdp_tx_buffers efx tx_queues cpu
          (good ++ bad :: rest).length (some (good ++ bad :: rest))
          flush).queue = some q2
        ∧ q2.insert_count = q.insert_count + good.length
        ∧ ∀ j, j < good.length →
            (q2.buffers (q.insert_count + j)).kind = BufKind.rawFrame := by
  have hn : (good ++ bad :: rest).length ≠ 0 := by simp
  have hstop : xdpTxLoop ((efx.txq_entries : Int) + (q.read_count : Int)
      - (q.insert_count : Int)) q (good ++ bad :: rest) 0
      = xdpTxLoop ((efx.txq_entries : Int) + (q.read_count : Int)
      - (q.insert_count : Int)) q good 0 :=
    xdpTxLoop_stop_at_unmappable _ good bad rest q 0 hbad
  have hcount : (xdpTxLoop ((efx.txq_entries : Int) + (q.read_count : Int)
      - (q.insert_count : Int)) q good 0).2 = good.length := by
    rw [hspace, xdpTxLoop_count_mappable s good q 0 hgood]
    omega
  have hins : (xdpTxLoop ((efx.txq_entries : Int) + (q.read_count : Int)
      - (q.insert_count : Int)) q good 0).1.insert_count
      = q.insert_count + good.length := by
    have h2 := xdpTxLoop_insert ((efx.txq_entries : Int) +
      (q.read_count : Int) - (q.insert_count : Int)) good q 0
    omega
  unfold efx_xdp_tx_buffers
  rw [if_neg (by omega), hq]
  dsimp only
  rw [if_neg (by simp [hn]), if_neg hn]
  simp only [Option.getD_some, List.take_length]
  rw [hstop, hcount, if_neg (by omega)]
  refine ⟨rfl, ?_, ?_⟩
  · show efx_xdp_return_frames ((good ++ bad :: rest).drop good.length)
      = bad :: rest
    unfold efx_xdp_return_frames
    rw [List.drop_left]
  · refine ⟨_, rfl, ?_, ?_⟩
    · by_cases hf : (flush = true) ∧ 0 < good.length
      · rw [if_pos hf]
        exact hins
      · rw [if_neg hf]
        exact hins
    · intro j hj
      have hk := xdpTxLoop_buffers_kind ((efx.txq_entries : Int) +
        (q.read_count : Int) - (q.insert_count : Int)) good q 0
        (q.insert_count + j) (by omega) (by omega)
      by_cases hf : (flush = true) ∧ 0 < good.length
      · rw [if_pos hf]
        exact hk
      · rw [if_neg hf]
        exact hk

/-- Witness for C7 (amended): two mappable frames followed by an
unmappable one in a queue with space 4: the call returns 2, keeps the
two appended RawFrame descriptors, and hands back the failing frame. -/
theorem xdp_tx_map_failure_midbatch_witness :
    ((efx_xdp_tx_buffers { txq_entries := 4, xdp_tx_queue_count := 1 }
        (fun _ => some { : TxQueue }) 0 3
        (some [{ id := 1 }, { id := 2 },
               { id := 3, mappable := false }]) false).ret = 2)
    ∧ ((efx_xdp_tx_buffers { txq_entries := 4, xdp_tx_queue_count := 1 }
        (fun _ => some { : TxQueue }) 0 3
        (some [{ id := 1 }, { id := 2 },
               { id := 3, mappable := false }]) false).returned
      = [{ id := 3, mappable := false }]) := by
  have h := xdp_tx_map_failure_midbatch
    { txq_entries := 4, xdp_tx_queue_count := 1 }
    (fun _ => some { : TxQueue }) 0 { : TxQueue }
    [{ id := 1 }, { id := 2 }] { id := 3, mappable := false } [] false 4
    (by decide) rfl (by decide) (by decide) (by decide) (by decide)
    (by decide)
  exact ⟨h.1, h.2.1⟩

/-- Witness for C10: one bound queue, an empty request with flush on;
the call returns 0 and leaves the queue untouched. -/
theorem xdp_tx_zero_frames_witness :
    efx_xdp_tx_buffers { xdp_tx_queue_count := 1 }
        (fun _ => some { insert_count := 3 }) 0 0 none true
      = { ret := 0, queue := some { insert_count := 3 } } :=
  xdp_tx_zero_frames { xdp_tx_queue_count := 1 }
    (fun _ => some { insert_count := 3 }) 0 none true
    { insert_count := 3 } (by decide) (by decide) rfl

end SfcTx
